import Mathlib

/-!
Verification of the NDBC realtime-observation client
(`custom_components/ndbcrealtime/client.py`) against its natural-language
specification.

The Python source is shallowly embedded as executable Lean definitions:

* Python `float` values are modelled exactly by `PyFloat`, an integer
  mantissa paired with a power-of-ten exponent.  Every token in the
  fixed-width feed is a plain decimal numeral, so its value is an exact
  decimal; comparisons in the program are only ever made against compass
  boundaries that are themselves exact multiples of `0.01`, where the
  ordering of the decimal values coincides with the ordering of their IEEE
  double approximations.  `PyFloat` comparison is exact rational comparison
  by cross multiplication.
* Python `int` is modelled by `ℤ` and Python strings by `String`
  (the feed is ASCII, so character positions and byte positions agree).
* The fallible parts of `get_data` / `get_json` return `Except NdbcError`,
  where `NdbcError` enumerates the concrete Python exceptions the source
  can raise (`KeyError`, `IndexError`, the two station-related
  `ValueError`s, the `ValueError` raised by a failed `int()` / `float()`
  coercion, and `ConnectionError`).
* The network transport, `aiohttp` session handling, `xmltodict`, and the
  `datetime` / `calendar` formatting of the already-extracted five integer
  time components are external collaborators and are not modelled; the
  status code and response body of the observation fetch are inputs.
-/

/-- Exact decimal model of a Python float value: `num / 10 ^ exp`.
All numeric tokens of the NDBC feed are plain decimal numerals, so this
representation is exact. -/
structure PyFloat where
  num : ℤ
  exp : ℕ
deriving DecidableEq, Repr

instance : LT PyFloat := ⟨fun x y => x.num * 10 ^ y.exp < y.num * 10 ^ x.exp⟩

instance : LE PyFloat := ⟨fun x y => x.num * 10 ^ y.exp ≤ y.num * 10 ^ x.exp⟩

instance pyFloatDecLt (x y : PyFloat) : Decidable (x < y) := Int.decLt _ _

instance pyFloatDecLe (x y : PyFloat) : Decidable (x ≤ y) := Int.decLe _ _

instance : OfScientific PyFloat :=
  ⟨fun m b e => if b then ⟨(m : ℤ), e⟩ else ⟨(m : ℤ) * 10 ^ e, 0⟩⟩

instance (n : Nat) : OfNat PyFloat n := ⟨⟨(n : ℤ), 0⟩⟩

instance : Neg PyFloat := ⟨fun x => ⟨-x.num, x.exp⟩⟩

/-- Python `round` restricted to an integral result (no `ndigits`
argument): round half to even.  Computed from the exact decimal value by
integer floor division. -/
def pythonRound (x : PyFloat) : ℤ :=
  let d : ℤ := 10 ^ x.exp
  let f : ℤ := Int.fdiv x.num d
  let r : ℤ := x.num - f * d
  if 2 * r < d then f
  else if d < 2 * r then f + 1
  else if f % 2 = 0 then f else f + 1

/-- Python whitespace predicate used by `str.strip()`. -/
def pyIsSpace (c : Char) : Bool :=
  c == ' ' || c == '\t' || c == '\n' || c == '\x0b' || c == '\x0c' || c == '\r'

/-- Characters of a string with leading and trailing whitespace removed;
the model of Python `str.strip()`. -/
def pyStripChars (cs : List Char) : List Char :=
  ((cs.dropWhile pyIsSpace).reverse.dropWhile pyIsSpace).reverse

/-- Python `line.strip()`. -/
def pyStrip (s : String) : String := String.mk (pyStripChars s.data)

/-- Python slice `s[a:b]` for `0 ≤ a ≤ b`: total, clamped to the length of
the string, never a bounds error. -/
def pySlice (s : String) (a b : Nat) : String :=
  String.mk ((s.data.drop a).take (b - a))

/-- Python `response.split("\n")` on the character list: splits at every
newline, keeping empty pieces, and yields `[""]` for the empty string. -/
def pySplitNl : List Char → List (List Char)
  | [] => [[]]
  | c :: rest =>
    if c = '\n' then [] :: pySplitNl rest
    else
      match pySplitNl rest with
      | [] => [[c]]
      | piece :: pieces => (c :: piece) :: pieces

/-- Python `response.split("\n")`. -/
def pySplit (s : String) : List String := (pySplitNl s.data).map String.mk

/-- Value of a digit list read in base ten (`0` for the empty list). -/
def digitsVal (cs : List Char) : Nat :=
  cs.foldl (fun a c => a * 10 + (c.toNat - 48)) 0

/-- A non-empty all-digit list read in base ten, `none` otherwise. -/
def digitsNat (cs : List Char) : Option Nat :=
  if cs ≠ [] ∧ cs.all (fun c => c.isDigit) then some (digitsVal cs) else none

/-- Python `int(s)` on the plain decimal tokens of the feed: an optional
sign followed by a non-empty digit run.  (The tokens reaching `int()` in
the source are already stripped by the slicer; underscores, whitespace and
non-decimal bases do not occur in the feed and are not modelled.) -/
def pythonIntParse (s : String) : Option ℤ :=
  match s.data with
  | '-' :: rest => (digitsNat rest).map (fun n => -(n : ℤ))
  | '+' :: rest => (digitsNat rest).map (fun n => (n : ℤ))
  | cs => (digitsNat cs).map (fun n => (n : ℤ))

/-- Magnitude part of Python `float(s)`: digits with at most one decimal
point, at least one digit overall. -/
def pythonFloatMag (cs : List Char) : Option PyFloat :=
  match cs.splitOn '.' with
  | [ip] => (digitsNat ip).map (fun n => ⟨(n : ℤ), 0⟩)
  | [ip, fp] =>
    if (ip ≠ [] ∨ fp ≠ []) ∧ ip.all (fun c => c.isDigit) ∧ fp.all (fun c => c.isDigit) then
      some ⟨(digitsVal ip * 10 ^ fp.length + digitsVal fp : ℕ), fp.length⟩
    else none
  | _ => none

/-- Python `float(s)` on the plain decimal tokens of the feed (exponent
and special forms such as `inf` do not occur in the feed and are not
modelled). -/
def pythonFloatParse (s : String) : Option PyFloat :=
  match s.data with
  | '-' :: rest => (pythonFloatMag rest).map (fun q => -q)
  | '+' :: rest => pythonFloatMag rest
  | cs => pythonFloatMag cs

/-- The concrete Python exceptions that `NDBC.get_data` / `NDBC.get_json`
can raise, one constructor per raise site or builtin failure. -/
inductive NdbcError where
  /-- Python `KeyError` from a dict subscript with an absent key
  (`stations_list[self._station_id]`, line 37). -/
  | keyError (key : String)
  /-- Python `IndexError` from a list subscript past the end
  (`data[1]` / `data[0]`). -/
  | indexError (idx : Nat)
  /-- The station-related `ValueError`s: line 38
  (`Station ID ... is invalid.`) and line 213 (`Invalid station ID`). -/
  | invalidStation (station_id : String)
  /-- The builtin `ValueError` raised by a failed `int(token)` or
  `float(token)` coercion (`invalid literal for ...`). -/
  | coercionValueError (token : String)
  /-- Python `ConnectionError` from line 215. -/
  | connectionError
deriving DecidableEq, Repr

instance exceptDecidableEq {ε α : Type} [DecidableEq ε] [DecidableEq α] :
    DecidableEq (Except ε α) := fun x y =>
  match x, y with
  | .ok a, .ok b =>
    if h : a = b then isTrue (by rw [h]) else isFalse (by intro hc; cases hc; exact h rfl)
  | .error a, .error b =>
    if h : a = b then isTrue (by rw [h]) else isFalse (by intro hc; cases hc; exact h rfl)
  | .ok _, .error _ => isFalse (by intro hc; cases hc)
  | .error _, .ok _ => isFalse (by intro hc; cases hc)

/-- Python `int(token)` as it occurs in `get_data`: the raw builtin
`ValueError` propagates on failure. -/
def pyInt (t : String) : Except NdbcError ℤ :=
  match pythonIntParse t with
  | some n => .ok n
  | none => .error (.coercionValueError t)

/-- Python `float(token)` as it occurs in `get_data`: the raw builtin
`ValueError` propagates on failure. -/
def pyFloat (t : String) : Except NdbcError PyFloat :=
  match pythonFloatParse t with
  | some q => .ok q
  | none => .error (.coercionValueError t)

/-- One fixed-width row of the feed: exactly one raw trimmed token per
field of the 19-element vocabulary (source lines 168-188). -/
structure RawRow where
  YY : String
  MM : String
  DD : String
  hh : String
  mm : String
  WDIR : String
  WSPD : String
  GST : String
  WVHT : String
  DPD : String
  APD : String
  MWD : String
  PRES : String
  ATMP : String
  WTMP : String
  DEWP : String
  VIS : String
  PTDY : String
  TIDE : String
deriving DecidableEq, Repr

/-- The 19-element field vocabulary of `col_specification`. -/
inductive NdbcField where
  | YY | MM | DD | hh | mm
  | WDIR | WSPD | GST
  | WVHT | DPD | APD | MWD
  | PRES | ATMP | WTMP | DEWP | VIS | PTDY | TIDE
deriving DecidableEq, Repr

/-- The byte-offset table `col_specification` of `get_json`
(source lines 168-188). -/
def col_specification : NdbcField → Nat × Nat
  | .YY => (0, 4)
  | .MM => (5, 7)
  | .DD => (8, 10)
  | .hh => (11, 13)
  | .mm => (14, 16)
  | .WDIR => (17, 21)
  | .WSPD => (22, 26)
  | .GST => (27, 31)
  | .WVHT => (32, 38)
  | .DPD => (39, 44)
  | .APD => (45, 48)
  | .MWD => (49, 52)
  | .PRES => (53, 60)
  | .ATMP => (61, 66)
  | .WTMP => (67, 72)
  | .DEWP => (73, 78)
  | .VIS => (79, 82)
  | .PTDY => (83, 88)
  | .TIDE => (89, 93)

/-- Token of a `RawRow` at a vocabulary field. -/
def rawRowGet (r : RawRow) : NdbcField → String
  | .YY => r.YY
  | .MM => r.MM
  | .DD => r.DD
  | .hh => r.hh
  | .mm => r.mm
  | .WDIR => r.WDIR
  | .WSPD => r.WSPD
  | .GST => r.GST
  | .WVHT => r.WVHT
  | .DPD => r.DPD
  | .APD => r.APD
  | .MWD => r.MWD
  | .PRES => r.PRES
  | .ATMP => r.ATMP
  | .WTMP => r.WTMP
  | .DEWP => r.DEWP
  | .VIS => r.VIS
  | .PTDY => r.PTDY
  | .TIDE => r.TIDE

/-- The inner loop body of `get_json` (source lines 201-205): slice every
configured byte range out of the line and strip it.  Purely positional;
no semantic validation. -/
def sliceLine (line : String) : RawRow where
  YY := pyStrip (pySlice line 0 4)
  MM := pyStrip (pySlice line 5 7)
  DD := pyStrip (pySlice line 8 10)
  hh := pyStrip (pySlice line 11 13)
  mm := pyStrip (pySlice line 14 16)
  WDIR := pyStrip (pySlice line 17 21)
  WSPD := pyStrip (pySlice line 22 26)
  GST := pyStrip (pySlice line 27 31)
  WVHT := pyStrip (pySlice line 32 38)
  DPD := pyStrip (pySlice line 39 44)
  APD := pyStrip (pySlice line 45 48)
  MWD := pyStrip (pySlice line 49 52)
  PRES := pyStrip (pySlice line 53 60)
  ATMP := pyStrip (pySlice line 61 66)
  WTMP := pyStrip (pySlice line 67 72)
  DEWP := pyStrip (pySlice line 73 78)
  VIS := pyStrip (pySlice line 79 82)
  PTDY := pyStrip (pySlice line 83 88)
  TIDE := pyStrip (pySlice line 89 93)

/-- The line loop of `get_json` (source lines 198-205): keep every line
except those whose first three characters are the literal `#YY`. -/
def parseLoop : List String → List RawRow
  | [] => []
  | line :: rest =>
    if pySlice line 0 3 == "#YY" then parseLoop rest
    else sliceLine line :: parseLoop rest

/-- The successful body of `get_json` (lines 195-207): split on newlines
and run the line loop.  The inner loop cannot raise, so the two `except`
arms of the source are dead and are not modelled. -/
def get_json_rows (response : String) : List RawRow :=
  parseLoop (pySplit response)

/-- The whole of `NDBC.get_json` (source lines 190-215) as a function of
the transport outcome: the response body (`None` only hypothetically, a
completed `resp.text()` always yields a string) and the HTTP status. -/
def get_json (station_id : String) (status : Nat) (response : Option String) :
    Except NdbcError (List RawRow) :=
  if response.isSome ∧ status ≠ 404 then
    .ok (get_json_rows (response.getD ""))
  else if status = 404 then
    .error (.invalidStation station_id)
  else
    .error .connectionError

/-- The station metadata the normalizer reads, as the raw attribute
strings of one `xmltodict` station element: `@lat`, `@lon`, the optional
`@elev`, and `@name`. -/
structure StationXml where
  lat : String
  lon : String
  elev : Option String
  name : String
deriving DecidableEq, Repr

/-- Python dict subscript `d[key]`: `KeyError` when the key is absent. -/
def dictGetitem (d : List (String × StationXml)) (key : String) :
    Except NdbcError StationXml :=
  match d.lookup key with
  | some v => .ok v
  | none => .error (.keyError key)

/-- Python list subscript `l[i]` for a non-negative index: `IndexError`
past the end. -/
def listGetitem (l : List RawRow) (i : Nat) : Except NdbcError RawRow :=
  match l.get? i with
  | some r => .ok r
  | none => .error (.indexError i)

/-- Python truthiness of a parsed station element.  `Stations.list` keys
every element by its `@id` attribute (source line 275), so each stored
value is a non-empty dict and hence truthy; the `if not stations_list[...]`
test of line 37 is therefore never taken for a key that is present. -/
def stationFalsy (_ : StationXml) : Bool := false

/-- Location block of the structured record (source lines 47-52). -/
structure LocationObs where
  latitude : PyFloat
  longitude : PyFloat
  elevation : ℤ
  name : String
deriving DecidableEq, Repr

/-- The five integer components handed to `datetime(...)` (source lines
55-62).  The `datetime` / `calendar` formatting of these five integers
into `utc_time` / `unix_time` is an external collaborator and is not
modelled. -/
structure TimeObs where
  year : ℤ
  month : ℤ
  day : ℤ
  hour : ℤ
  minute : ℤ
deriving DecidableEq, Repr

/-- Wind block of the structured record (source lines 70-90). -/
structure WindObs where
  direction : Option ℤ
  direction_unit : String
  direction_compass : Option String
  speed : Option PyFloat
  speed_unit : String
  gusts : Option PyFloat
  gusts_unit : String
deriving DecidableEq, Repr

/-- Waves block of the structured record (source lines 93-118). -/
structure WavesObs where
  height : Option PyFloat
  height_unit : String
  period : Option ℤ
  period_unit : String
  average_period : Option ℤ
  average_period_unit : String
  direction : Option ℤ
  direction_unit : String
  direction_compass : Option String
deriving DecidableEq, Repr

/-- Weather block of the structured record (source lines 121-157). -/
structure WeatherObs where
  pressure : Option PyFloat
  pressure_unit : String
  air_temperature : Option PyFloat
  air_temperature_unit : String
  water_temperature : Option PyFloat
  water_temperature_unit : String
  dewpoint : Option PyFloat
  dewpoint_unit : String
  visibility : Option PyFloat
  visibility_unit : String
  pressure_tendency : Option PyFloat
  pressure_tendency_unit : String
  tide : Option PyFloat
  tide_unit : String
deriving DecidableEq, Repr

/-- The `observation` part of the structured record. -/
structure ObservationData where
  time : TimeObs
  wind : WindObs
  waves : WavesObs
  weather : WeatherObs
deriving DecidableEq, Repr

/-- The full return value of `get_data` (source lines 43-162). -/
structure Structured where
  location : LocationObs
  observation : ObservationData
deriving DecidableEq, Repr

/-- The compass bucketing `NDBC.compass_direction` (source lines
217-249), transcribed branch for branch; `a > b` of the source is written
`b < a`. -/
def compass_direction (degrees : PyFloat) : String :=
  if 11.25 < degrees ∧ degrees ≤ 33.75 then "NNE"
  else if 33.75 < degrees ∧ degrees ≤ 56.25 then "NE"
  else if 56.25 < degrees ∧ degrees ≤ 78.75 then "ENE"
  else if 78.75 < degrees ∧ degrees ≤ 101.25 then "E"
  else if 101.25 < degrees ∧ degrees ≤ 123.75 then "ESE"
  else if 123.75 < degrees ∧ degrees ≤ 146.25 then "SE"
  else if 146.25 < degrees ∧ degrees ≤ 168.75 then "SSE"
  else if 168.75 < degrees ∧ degrees ≤ 191.25 then "S"
  else if 191.25 < degrees ∧ degrees ≤ 213.75 then "SSW"
  else if 213.75 < degrees ∧ degrees ≤ 236.25 then "SW"
  else if 236.25 < degrees ∧ degrees ≤ 258.75 then "WSW"
  else if 258.75 < degrees ∧ degrees ≤ 281.25 then "W"
  else if 281.25 < degrees ∧ degrees ≤ 303.75 then "WNW"
  else if 303.75 < degrees ∧ degrees ≤ 326.25 then "NW"
  else if 326.25 < degrees ∧ degrees ≤ 348.75 then "NNW"
  else "N"

/-- The sixteen compass labels, in source branch order with the final
catch-all `N` first. -/
def compassLabels : List String :=
  ["N", "NNE", "NE", "ENE", "E", "ESE", "SE", "SSE",
   "S", "SSW", "SW", "WSW", "W", "WNW", "NW", "NNW"]

/-- Elevation coercion `int(station.get("@elev", 0))` (source line 50). -/
def elevInt (elev : Option String) : Except NdbcError ℤ :=
  match elev with
  | none => .ok 0
  | some e => pyInt e

/-- Sentinel-guarded integer coercion, the shape of source lines 80-81,
108-109 and 114-115: `None` for the `MM` sentinel, otherwise
`int(token)`. -/
def guardInt (t : String) : Except NdbcError (Option ℤ) :=
  if t = "MM" then .ok none else (pyInt t).map some

/-- Sentinel-guarded float coercion, the shape of source lines 86-90,
105-106 and 138-157: `None` for the `MM` sentinel, otherwise
`float(token)`. -/
def guardFloat (t : String) : Except NdbcError (Option PyFloat) :=
  if t = "MM" then .ok none else (pyFloat t).map some

/-- Sentinel-guarded compass label, the shape of source lines 82-84 and
116-118: `None` for the `MM` sentinel, otherwise
`compass_direction(float(token))`. -/
def guardCompass (t : String) : Except NdbcError (Option String) :=
  if t = "MM" then .ok none
  else (pyFloat t).map (fun q => some (compass_direction q))

/-- Sentinel-guarded rounded coercion of the average wave period, source
lines 111-112: `None` for the `MM` sentinel, otherwise
`int(round(float(token)))`. -/
def guardRound (t : String) : Except NdbcError (Option ℤ) :=
  if t = "MM" then .ok none
  else (pyFloat t).map (fun q => some (pythonRound q))

/-- The normalization body of `get_data` (source lines 43-162) applied to
the units row `row0 = data[0]` and the value row `row1 = data[1]`.
Coercions appear in source order, so the first failing coercion is the
error returned. -/
def normalizeRows (station : StationXml) (row0 row1 : RawRow) :
    Except NdbcError Structured := do
  let latitude ← pyFloat station.lat
  let longitude ← pyFloat station.lon
  let elevation ← elevInt station.elev
  let yy ← pyInt row1.YY
  let mo ← pyInt row1.MM
  let dd ← pyInt row1.DD
  let hh ← pyInt row1.hh
  let mi ← pyInt row1.mm
  let wdir ← guardInt row1.WDIR
  let wdirCompass ← guardCompass row1.WDIR
  let wspd ← guardFloat row1.WSPD
  let gst ← guardFloat row1.GST
  let wvht ← guardFloat row1.WVHT
  let dpd ← guardInt row1.DPD
  let apd ← guardRound row1.APD
  let mwd ← guardInt row1.MWD
  let mwdCompass ← guardCompass row1.MWD
  let pres ← guardFloat row1.PRES
  let atmp ← guardFloat row1.ATMP
  let wtmp ← guardFloat row1.WTMP
  let dewp ← guardFloat row1.DEWP
  let vis ← guardFloat row1.VIS
  let ptdy ← guardFloat row1.PTDY
  let tide ← guardFloat row1.TIDE
  .ok
    { location :=
        { latitude := latitude, longitude := longitude,
          elevation := elevation, name := station.name }
      observation :=
        { time := { year := yy, month := mo, day := dd, hour := hh, minute := mi }
          wind :=
            { direction := wdir, direction_unit := row0.WDIR,
              direction_compass := wdirCompass,
              speed := wspd, speed_unit := row0.WSPD,
              gusts := gst, gusts_unit := row0.GST }
          waves :=
            { height := wvht, height_unit := row0.WVHT,
              period := dpd, period_unit := row0.DPD,
              average_period := apd, average_period_unit := row0.APD,
              direction := mwd, direction_unit := row0.MWD,
              direction_compass := mwdCompass }
          weather :=
            { pressure := pres, pressure_unit := row0.PRES,
              air_temperature := atmp, air_temperature_unit := row0.ATMP,
              water_temperature := wtmp, water_temperature_unit := row0.WTMP,
              dewpoint := dewp, dewpoint_unit := row0.DEWP,
              visibility := vis, visibility_unit := row0.VIS,
              pressure_tendency := ptdy, pressure_tendency_unit := row0.PTDY,
              tide := tide, tide_unit := row0.TIDE } } }

/-- The whole of `NDBC.get_data` (source lines 31-162).  `stations_list`
is the mapping built by `Stations.list`; `status` and `response` are the
transport outcome of the observation fetch.  Line 37 subscripts the dict
before testing truthiness, so an absent station id raises `KeyError`
there.  `data[1]` is first subscripted at line 56 and `data[0]` at line
72; once `data[1]` succeeds, `data[0]` cannot fail, so hoisting both
subscripts before the coercions preserves behaviour. -/
def get_data (stations_list : List (String × StationXml)) (station_id : String)
    (status : Nat) (response : Option String) : Except NdbcError Structured := do
  let s0 ← dictGetitem stations_list station_id
  if stationFalsy s0 then
    Except.error (.invalidStation station_id)
  else do
    let station ← dictGetitem stations_list station_id
    let data ← get_json station_id status response
    let row1 ← listGetitem data 1
    let row0 ← listGetitem data 0
    normalizeRows station row0 row1

/-- Concrete station fixture, after the end-to-end scenario of the spec:
station 41013, `@elev` absent. -/
def exampleStation : StationXml :=
  { lat := "32.766", lon := "-79.462", elev := none, name := "Charleston Bump" }

/-- Concrete units-row fixture.  The `TIDE` token is deliberately the
sentinel spelling `MM` to exercise the fact that units are never
sentinel-checked. -/
def exampleUnitsRow : RawRow :=
  { YY := "#yr", MM := "mo", DD := "dy", hh := "hr", mm := "mn",
    WDIR := "degT", WSPD := "m/s", GST := "m/s", WVHT := "m", DPD := "sec",
    APD := "sec", MWD := "degT", PRES := "hPa", ATMP := "degC", WTMP := "degC",
    DEWP := "degC", VIS := "nmi", PTDY := "hPa", TIDE := "MM" }

/-- Concrete value-row fixture: a mix of numeric tokens and `MM`
sentinels. -/
def exampleValueRow : RawRow :=
  { YY := "2024", MM := "03", DD := "14", hh := "12", mm := "30",
    WDIR := "180", WSPD := "5.1", GST := "MM", WVHT := "1.5", DPD := "10",
    APD := "5.5", MWD := "200", PRES := "1013.2", ATMP := "15.0", WTMP := "14.0",
    DEWP := "10.0", VIS := "MM", PTDY := "MM", TIDE := "MM" }

/-- The structured record `normalizeRows` produces from the three
fixtures above (checked by evaluation in the theorems below).  Note
`average_period = 6`: Python `round(5.5)` rounds half to even, giving 6
here because 5 is odd. -/
def exampleStructured : Structured :=
  { location := { latitude := ⟨32766, 3⟩, longitude := ⟨-79462, 3⟩,
                  elevation := 0, name := "Charleston Bump" }
    observation :=
      { time := { year := 2024, month := 3, day := 14, hour := 12, minute := 30 }
        wind := { direction := some 180, direction_unit := "degT",
                  direction_compass := some "S",
                  speed := some ⟨51, 1⟩, speed_unit := "m/s",
                  gusts := none, gusts_unit := "m/s" }
        waves := { height := some ⟨15, 1⟩, height_unit := "m",
                   period := some 10, period_unit := "sec",
                   average_period := some 6, average_period_unit := "sec",
                   direction := some 200, direction_unit := "degT",
                   direction_compass := some "SSW" }
        weather := { pressure := some ⟨10132, 1⟩, pressure_unit := "hPa",
                     air_temperature := some ⟨150, 1⟩, air_temperature_unit := "degC",
                     water_temperature := some ⟨140, 1⟩, water_temperature_unit := "degC",
                     dewpoint := some ⟨100, 1⟩, dewpoint_unit := "degC",
                     visibility := none, visibility_unit := "nmi",
                     pressure_tendency := none, pressure_tendency_unit := "hPa",
                     tide := none, tide_unit := "MM" } } }

/-! ## Helper lemmas -/

theorem pyfloat_lt_def (x y : PyFloat) :
    x < y ↔ x.num * 10 ^ y.exp < y.num * 10 ^ x.exp := Iff.rfl

theorem pyfloat_le_def (x y : PyFloat) :
    x ≤ y ↔ x.num * 10 ^ y.exp ≤ y.num * 10 ^ x.exp := Iff.rfl

theorem exbind_ok {ε α β : Type} {x : Except ε α} {f : α → Except ε β} {b : β}
    (h : x >>= f = Except.ok b) : ∃ a, x = Except.ok a ∧ f a = Except.ok b := by
  cases x with
  | error e => exact absurd h (by simp [Bind.bind, Except.bind])
  | ok a => exact ⟨a, rfl, by simpa [Bind.bind, Except.bind] using h⟩

theorem exmap_ok {ε α β : Type} {x : Except ε α} {f : α → β} {b : β}
    (h : Except.map f x = Except.ok b) : ∃ a, x = Except.ok a ∧ f a = b := by
  cases x with
  | error e => simp [Except.map] at h
  | ok a => exact ⟨a, rfl, by simpa [Except.map] using h⟩

theorem pyInt_ok_parse {t : String} {n : ℤ} (h : pyInt t = Except.ok n) :
    pythonIntParse t = some n := by
  unfold pyInt at h
  cases hp : pythonIntParse t with
  | none => rw [hp] at h; exact Except.noConfusion h
  | some m => rw [hp] at h; cases h; rfl

theorem pyFloat_ok_parse {t : String} {q : PyFloat} (h : pyFloat t = Except.ok q) :
    pythonFloatParse t = some q := by
  unfold pyFloat at h
  cases hp : pythonFloatParse t with
  | none => rw [hp] at h; exact Except.noConfusion h
  | some m => rw [hp] at h; cases h; rfl

/-- Bridging lemma: all compass boundaries have exponent 2, so a strict
lower-bound comparison against one unfolds to this integer inequality. -/
theorem pyfloat_sci_lt {d : PyFloat} {m : ℕ}
    (h : (OfScientific.ofScientific m true 2 : PyFloat) < d) :
    (m : ℤ) * 10 ^ d.exp < d.num * 100 := by
  have g : (m : ℤ) * 10 ^ d.exp < d.num * 10 ^ (2 : ℕ) := h
  norm_num at g
  exact g

/-- Bridging lemma: an inclusive upper-bound comparison against a compass
boundary unfolds to this integer inequality. -/
theorem pyfloat_le_sci {d : PyFloat} {m : ℕ}
    (h : d ≤ (OfScientific.ofScientific m true 2 : PyFloat)) :
    d.num * 100 ≤ (m : ℤ) * 10 ^ d.exp := by
  have g : d.num * 10 ^ (2 : ℕ) ≤ (m : ℤ) * 10 ^ d.exp := h
  norm_num at g
  exact g

theorem pyfloat_lt_of_not_le {x y : PyFloat} (h : ¬ x ≤ y) : y < x := by
  rw [pyfloat_le_def] at h
  rw [pyfloat_lt_def]
  omega

/-- Any degrees value at most 11.25 falls through every bucket test of
`compass_direction` and lands on the final catch-all `N`. -/
theorem compass_le_low {d : PyFloat} (h : d ≤ 11.25) : compass_direction d = "N" := by
  have hp : (0 : ℤ) < 10 ^ d.exp := pow_pos (by norm_num) _
  have g := pyfloat_le_sci h
  push_cast at g
  unfold compass_direction
  rw [if_neg (by intro hc; have hA := pyfloat_sci_lt hc.1; push_cast at hA; omega),
      if_neg (by intro hc; have hA := pyfloat_sci_lt hc.1; push_cast at hA; omega),
      if_neg (by intro hc; have hA := pyfloat_sci_lt hc.1; push_cast at hA; omega),
      if_neg (by intro hc; have hA := pyfloat_sci_lt hc.1; push_cast at hA; omega),
      if_neg (by intro hc; have hA := pyfloat_sci_lt hc.1; push_cast at hA; omega),
      if_neg (by intro hc; have hA := pyfloat_sci_lt hc.1; push_cast at hA; omega),
      if_neg (by intro hc; have hA := pyfloat_sci_lt hc.1; push_cast at hA; omega),
      if_neg (by intro hc; have hA := pyfloat_sci_lt hc.1; push_cast at hA; omega),
      if_neg (by intro hc; have hA := pyfloat_sci_lt hc.1; push_cast at hA; omega),
      if_neg (by intro hc; have hA := pyfloat_sci_lt hc.1; push_cast at hA; omega),
      if_neg (by intro hc; have hA := pyfloat_sci_lt hc.1; push_cast at hA; omega),
      if_neg (by intro hc; have hA := pyfloat_sci_lt hc.1; push_cast at hA; omega),
      if_neg (by intro hc; have hA := pyfloat_sci_lt hc.1; push_cast at hA; omega),
      if_neg (by intro hc; have hA := pyfloat_sci_lt hc.1; push_cast at hA; omega),
      if_neg (by intro hc; have hA := pyfloat_sci_lt hc.1; push_cast at hA; omega)]

/-- Any degrees value strictly above 348.75 falls through every bucket
test of `compass_direction` and lands on the final catch-all `N`. -/
theorem compass_gt_high {d : PyFloat} (h : (348.75 : PyFloat) < d) :
    compass_direction d = "N" := by
  have hp : (0 : ℤ) < 10 ^ d.exp := pow_pos (by norm_num) _
  have g := pyfloat_sci_lt h
  push_cast at g
  unfold compass_direction
  rw [if_neg (by intro hc; have hB := pyfloat_le_sci hc.2; push_cast at hB; omega),
      if_neg (by intro hc; have hB := pyfloat_le_sci hc.2; push_cast at hB; omega),
      if_neg (by intro hc; have hB := pyfloat_le_sci hc.2; push_cast at hB; omega),
      if_neg (by intro hc; have hB := pyfloat_le_sci hc.2; push_cast at hB; omega),
      if_neg (by intro hc; have hB := pyfloat_le_sci hc.2; push_cast at hB; omega),
      if_neg (by intro hc; have hB := pyfloat_le_sci hc.2; push_cast at hB; omega),
      if_neg (by intro hc; have hB := pyfloat_le_sci hc.2; push_cast at hB; omega),
      if_neg (by intro hc; have hB := pyfloat_le_sci hc.2; push_cast at hB; omega),
      if_neg (by intro hc; have hB := pyfloat_le_sci hc.2; push_cast at hB; omega),
      if_neg (by intro hc; have hB := pyfloat_le_sci hc.2; push_cast at hB; omega),
      if_neg (by intro hc; have hB := pyfloat_le_sci hc.2; push_cast at hB; omega),
      if_neg (by intro hc; have hB := pyfloat_le_sci hc.2; push_cast at hB; omega),
      if_neg (by intro hc; have hB := pyfloat_le_sci hc.2; push_cast at hB; omega),
      if_neg (by intro hc; have hB := pyfloat_le_sci hc.2; push_cast at hB; omega),
      if_neg (by intro hc; have hB := pyfloat_le_sci hc.2; push_cast at hB; omega)]

/-- Bucket lemma for `NNE`: degrees in (11.25, 33.75] resolve to `NNE`. -/
theorem compass_in_NNE (d : PyFloat) (h1 : (11.25 : PyFloat) < d) (h2 : d ≤ 33.75) :
    compass_direction d = "NNE" := by
  have hp : (0 : ℤ) < 10 ^ d.exp := pow_pos (by norm_num) _
  have g1 := pyfloat_sci_lt h1
  have g2 := pyfloat_le_sci h2
  push_cast at g1 g2
  unfold compass_direction
  rw [if_pos (And.intro h1 h2)]

/-- Bucket lemma for `NE`: degrees in (33.75, 56.25] resolve to `NE`. -/
theorem compass_in_NE (d : PyFloat) (h1 : (33.75 : PyFloat) < d) (h2 : d ≤ 56.25) :
    compass_direction d = "NE" := by
  have hp : (0 : ℤ) < 10 ^ d.exp := pow_pos (by norm_num) _
  have g1 := pyfloat_sci_lt h1
  have g2 := pyfloat_le_sci h2
  push_cast at g1 g2
  unfold compass_direction
  rw [if_neg (by intro hc; have hB := pyfloat_le_sci hc.2; push_cast at hB; omega),
      if_pos (And.intro h1 h2)]

/-- Bucket lemma for `ENE`: degrees in (56.25, 78.75] resolve to `ENE`. -/
theorem compass_in_ENE (d : PyFloat) (h1 : (56.25 : PyFloat) < d) (h2 : d ≤ 78.75) :
    compass_direction d = "ENE" := by
  have hp : (0 : ℤ) < 10 ^ d.exp := pow_pos (by norm_num) _
  have g1 := pyfloat_sci_lt h1
  have g2 := pyfloat_le_sci h2
  push_cast at g1 g2
  unfold compass_direction
  rw [if_neg (by intro hc; have hB := pyfloat_le_sci hc.2; push_cast at hB; omega),
      if_neg (by intro hc; have hB := pyfloat_le_sci hc.2; push_cast at hB; omega),
      if_pos (And.intro h1 h2)]

/-- Bucket lemma for `E`: degrees in (78.75, 101.25] resolve to `E`. -/
theorem compass_in_E (d : PyFloat) (h1 : (78.75 : PyFloat) < d) (h2 : d ≤ 101.25) :
    compass_direction d = "E" := by
  have hp : (0 : ℤ) < 10 ^ d.exp := pow_pos (by norm_num) _
  have g1 := pyfloat_sci_lt h1
  have g2 := pyfloat_le_sci h2
  push_cast at g1 g2
  unfold compass_direction
  rw [if_neg (by intro hc; have hB := pyfloat_le_sci hc.2; push_cast at hB; omega),
      if_neg (by intro hc; have hB := pyfloat_le_sci hc.2; push_cast at hB; omega),
      if_neg (by intro hc; have hB := pyfloat_le_sci hc.2; push_cast at hB; omega),
      if_pos (And.intro h1 h2)]

/-- Bucket lemma for `ESE`: degrees in (101.25, 123.75] resolve to `ESE`. -/
theorem compass_in_ESE (d : PyFloat) (h1 : (101.25 : PyFloat) < d) (h2 : d ≤ 123.75) :
    compass_direction d = "ESE" := by
  have hp : (0 : ℤ) < 10 ^ d.exp := pow_pos (by norm_num) _
  have g1 := pyfloat_sci_lt h1
  have g2 := pyfloat_le_sci h2
  push_cast at g1 g2
  unfold compass_direction
  rw [if_neg (by intro hc; have hB := pyfloat_le_sci hc.2; push_cast at hB; omega),
      if_neg (by intro hc; have hB := pyfloat_le_sci hc.2; push_cast at hB; omega),
      if_neg (by intro hc; have hB := pyfloat_le_sci hc.2; push_cast at hB; omega),
      if_neg (by intro hc; have hB := pyfloat_le_sci hc.2; push_cast at hB; omega),
      if_pos (And.intro h1 h2)]

/-- Bucket lemma for `SE`: degrees in (123.75, 146.25] resolve to `SE`. -/
theorem compass_in_SE (d : PyFloat) (h1 : (123.75 : PyFloat) < d) (h2 : d ≤ 146.25) :
    compass_direction d = "SE" := by
  have hp : (0 : ℤ) < 10 ^ d.exp := pow_pos (by norm_num) _
  have g1 := pyfloat_sci_lt h1
  have g2 := pyfloat_le_sci h2
  push_cast at g1 g2
  unfold compass_direction
  rw [if_neg (by intro hc; have hB := pyfloat_le_sci hc.2; push_cast at hB; omega),
      if_neg (by intro hc; have hB := pyfloat_le_sci hc.2; push_cast at hB; omega),
      if_neg (by intro hc; have hB := pyfloat_le_sci hc.2; push_cast at hB; omega),
      if_neg (by intro hc; have hB := pyfloat_le_sci hc.2; push_cast at hB; omega),
      if_neg (by intro hc; have hB := pyfloat_le_sci hc.2; push_cast at hB; omega),
      if_pos (And.intro h1 h2)]

/-- Bucket lemma for `SSE`: degrees in (146.25, 168.75] resolve to `SSE`. -/
theorem compass_in_SSE (d : PyFloat) (h1 : (146.25 : PyFloat) < d) (h2 : d ≤ 168.75) :
    compass_direction d = "SSE" := by
  have hp : (0 : ℤ) < 10 ^ d.exp := pow_pos (by norm_num) _
  have g1 := pyfloat_sci_lt h1
  have g2 := pyfloat_le_sci h2
  push_cast at g1 g2
  unfold compass_direction
  rw [if_neg (by intro hc; have hB := pyfloat_le_sci hc.2; push_cast at hB; omega),
      if_neg (by intro hc; have hB := pyfloat_le_sci hc.2; push_cast at hB; omega),
      if_neg (by intro hc; have hB := pyfloat_le_sci hc.2; push_cast at hB; omega),
      if_neg (by intro hc; have hB := pyfloat_le_sci hc.2; push_cast at hB; omega),
      if_neg (by intro hc; have hB := pyfloat_le_sci hc.2; push_cast at hB; omega),
      if_neg (by intro hc; have hB := pyfloat_le_sci hc.2; push_cast at hB; omega),
      if_pos (And.intro h1 h2)]

/-- Bucket lemma for `S`: degrees in (168.75, 191.25] resolve to `S`. -/
theorem compass_in_S (d : PyFloat) (h1 : (168.75 : PyFloat) < d) (h2 : d ≤ 191.25) :
    compass_direction d = "S" := by
  have hp : (0 : ℤ) < 10 ^ d.exp := pow_pos (by norm_num) _
  have g1 := pyfloat_sci_lt h1
  have g2 := pyfloat_le_sci h2
  push_cast at g1 g2
  unfold compass_direction
  rw [if_neg (by intro hc; have hB := pyfloat_le_sci hc.2; push_cast at hB; omega),
      if_neg (by intro hc; have hB := pyfloat_le_sci hc.2; push_cast at hB; omega),
      if_neg (by intro hc; have hB := pyfloat_le_sci hc.2; push_cast at hB; omega),
      if_neg (by intro hc; have hB := pyfloat_le_sci hc.2; push_cast at hB; omega),
      if_neg (by intro hc; have hB := pyfloat_le_sci hc.2; push_cast at hB; omega),
      if_neg (by intro hc; have hB := pyfloat_le_sci hc.2; push_cast at hB; omega),
      if_neg (by intro hc; have hB := pyfloat_le_sci hc.2; push_cast at hB; omega),
      if_pos (And.intro h1 h2)]

/-- Bucket lemma for `SSW`: degrees in (191.25, 213.75] resolve to `SSW`. -/
theorem compass_in_SSW (d : PyFloat) (h1 : (191.25 : PyFloat) < d) (h2 : d ≤ 213.75) :
    compass_direction d = "SSW" := by
  have hp : (0 : ℤ) < 10 ^ d.exp := pow_pos (by norm_num) _
  have g1 := pyfloat_sci_lt h1
  have g2 := pyfloat_le_sci h2
  push_cast at g1 g2
  unfold compass_direction
  rw [if_neg (by intro hc; have hB := pyfloat_le_sci hc.2; push_cast at hB; omega),
      if_neg (by intro hc; have hB := pyfloat_le_sci hc.2; push_cast at hB; omega),
      if_neg (by intro hc; have hB := pyfloat_le_sci hc.2; push_cast at hB; omega),
      if_neg (by intro hc; have hB := pyfloat_le_sci hc.2; push_cast at hB; omega),
      if_neg (by intro hc; have hB := pyfloat_le_sci hc.2; push_cast at hB; omega),
      if_neg (by intro hc; have hB := pyfloat_le_sci hc.2; push_cast at hB; omega),
      if_neg (by intro hc; have hB := pyfloat_le_sci hc.2; push_cast at hB; omega),
      if_neg (by intro hc; have hB := pyfloat_le_sci hc.2; push_cast at hB; omega),
      if_pos (And.intro h1 h2)]

/-- Bucket lemma for `SW`: degrees in (213.75, 236.25] resolve to `SW`. -/
theorem compass_in_SW (d : PyFloat) (h1 : (213.75 : PyFloat) < d) (h2 : d ≤ 236.25) :
    compass_direction d = "SW" := by
  have hp : (0 : ℤ) < 10 ^ d.exp := pow_pos (by norm_num) _
  have g1 := pyfloat_sci_lt h1
  have g2 := pyfloat_le_sci h2
  push_cast at g1 g2
  unfold compass_direction
  rw [if_neg (by intro hc; have hB := pyfloat_le_sci hc.2; push_cast at hB; omega),
      if_neg (by intro hc; have hB := pyfloat_le_sci hc.2; push_cast at hB; omega),
      if_neg (by intro hc; have hB := pyfloat_le_sci hc.2; push_cast at hB; omega),
      if_neg (by intro hc; have hB := pyfloat_le_sci hc.2; push_cast at hB; omega),
      if_neg (by intro hc; have hB := pyfloat_le_sci hc.2; push_cast at hB; omega),
      if_neg (by intro hc; have hB := pyfloat_le_sci hc.2; push_cast at hB; omega),
      if_neg (by intro hc; have hB := pyfloat_le_sci hc.2; push_cast at hB; omega),
      if_neg (by intro hc; have hB := pyfloat_le_sci hc.2; push_cast at hB; omega),
      if_neg (by intro hc; have hB := pyfloat_le_sci hc.2; push_cast at hB; omega),
      if_pos (And.intro h1 h2)]

/-- Bucket lemma for `WSW`: degrees in (236.25, 258.75] resolve to `WSW`. -/
theorem compass_in_WSW (d : PyFloat) (h1 : (236.25 : PyFloat) < d) (h2 : d ≤ 258.75) :
    compass_direction d = "WSW" := by
  have hp : (0 : ℤ) < 10 ^ d.exp := pow_pos (by norm_num) _
  have g1 := pyfloat_sci_lt h1
  have g2 := pyfloat_le_sci h2
  push_cast at g1 g2
  unfold compass_direction
  rw [if_neg (by intro hc; have hB := pyfloat_le_sci hc.2; push_cast at hB; omega),
      if_neg (by intro hc; have hB := pyfloat_le_sci hc.2; push_cast at hB; omega),
      if_neg (by intro hc; have hB := pyfloat_le_sci hc.2; push_cast at hB; omega),
      if_neg (by intro hc; have hB := pyfloat_le_sci hc.2; push_cast at hB; omega),
      if_neg (by intro hc; have hB := pyfloat_le_sci hc.2; push_cast at hB; omega),
      if_neg (by intro hc; have hB := pyfloat_le_sci hc.2; push_cast at hB; omega),
      if_neg (by intro hc; have hB := pyfloat_le_sci hc.2; push_cast at hB; omega),
      if_neg (by intro hc; have hB := pyfloat_le_sci hc.2; push_cast at hB; omega),
      if_neg (by intro hc; have hB := pyfloat_le_sci hc.2; push_cast at hB; omega),
      if_neg (by intro hc; have hB := pyfloat_le_sci hc.2; push_cast at hB; omega),
      if_pos (And.intro h1 h2)]

/-- Bucket lemma for `W`: degrees in (258.75, 281.25] resolve to `W`. -/
theorem compass_in_W (d : PyFloat) (h1 : (258.75 : PyFloat) < d) (h2 : d ≤ 281.25) :
    compass_direction d = "W" := by
  have hp : (0 : ℤ) < 10 ^ d.exp := pow_pos (by norm_num) _
  have g1 := pyfloat_sci_lt h1
  have g2 := pyfloat_le_sci h2
  push_cast at g1 g2
  unfold compass_direction
  rw [if_neg (by intro hc; have hB := pyfloat_le_sci hc.2; push_cast at hB; omega),
      if_neg (by intro hc; have hB := pyfloat_le_sci hc.2; push_cast at hB; omega),
      if_neg (by intro hc; have hB := pyfloat_le_sci hc.2; push_cast at hB; omega),
      if_neg (by intro hc; have hB := pyfloat_le_sci hc.2; push_cast at hB; omega),
      if_neg (by intro hc; have hB := pyfloat_le_sci hc.2; push_cast at hB; omega),
      if_neg (by intro hc; have hB := pyfloat_le_sci hc.2; push_cast at hB; omega),
      if_neg (by intro hc; have hB := pyfloat_le_sci hc.2; push_cast at hB; omega),
      if_neg (by intro hc; have hB := pyfloat_le_sci hc.2; push_cast at hB; omega),
      if_neg (by intro hc; have hB := pyfloat_le_sci hc.2; push_cast at hB; omega),
      if_neg (by intro hc; have hB := pyfloat_le_sci hc.2; push_cast at hB; omega),
      if_neg (by intro hc; have hB := pyfloat_le_sci hc.2; push_cast at hB; omega),
      if_pos (And.intro h1 h2)]

/-- Bucket lemma for `WNW`: degrees in (281.25, 303.75] resolve to `WNW`. -/
theorem compass_in_WNW (d : PyFloat) (h1 : (281.25 : PyFloat) < d) (h2 : d ≤ 303.75) :
    compass_direction d = "WNW" := by
  have hp : (0 : ℤ) < 10 ^ d.exp := pow_pos (by norm_num) _
  have g1 := pyfloat_sci_lt h1
  have g2 := pyfloat_le_sci h2
  push_cast at g1 g2
  unfold compass_direction
  rw [if_neg (by intro hc; have hB := pyfloat_le_sci hc.2; push_cast at hB; omega),
      if_neg (by intro hc; have hB := pyfloat_le_sci hc.2; push_cast at hB; omega),
      if_neg (by intro hc; have hB := pyfloat_le_sci hc.2; push_cast at hB; omega),
      if_neg (by intro hc; have hB := pyfloat_le_sci hc.2; push_cast at hB; omega),
      if_neg (by intro hc; have hB := pyfloat_le_sci hc.2; push_cast at hB; omega),
      if_neg (by intro hc; have hB := pyfloat_le_sci hc.2; push_cast at hB; omega),
      if_neg (by intro hc; have hB := pyfloat_le_sci hc.2; push_cast at hB; omega),
      if_neg (by intro hc; have hB := pyfloat_le_sci hc.2; push_cast at hB; omega),
      if_neg (by intro hc; have hB := pyfloat_le_sci hc.2; push_cast at hB; omega),
      if_neg (by intro hc; have hB := pyfloat_le_sci hc.2; push_cast at hB; omega),
      if_neg (by intro hc; have hB := pyfloat_le_sci hc.2; push_cast at hB; omega),
      if_neg (by intro hc; have hB := pyfloat_le_sci hc.2; push_cast at hB; omega),
      if_pos (And.intro h1 h2)]

/-- Bucket lemma for `NW`: degrees in (303.75, 326.25] resolve to `NW`. -/
theorem compass_in_NW (d : PyFloat) (h1 : (303.75 : PyFloat) < d) (h2 : d ≤ 326.25) :
    compass_direction d = "NW" := by
  have hp : (0 : ℤ) < 10 ^ d.exp := pow_pos (by norm_num) _
  have g1 := pyfloat_sci_lt h1
  have g2 := pyfloat_le_sci h2
  push_cast at g1 g2
  unfold compass_direction
  rw [if_neg (by intro hc; have hB := pyfloat_le_sci hc.2; push_cast at hB; omega),
      if_neg (by intro hc; have hB := pyfloat_le_sci hc.2; push_cast at hB; omega),
      if_neg (by intro hc; have hB := pyfloat_le_sci hc.2; push_cast at hB; omega),
      if_neg (by intro hc; have hB := pyfloat_le_sci hc.2; push_cast at hB; omega),
      if_neg (by intro hc; have hB := pyfloat_le_sci hc.2; push_cast at hB; omega),
      if_neg (by intro hc; have hB := pyfloat_le_sci hc.2; push_cast at hB; omega),
      if_neg (by intro hc; have hB := pyfloat_le_sci hc.2; push_cast at hB; omega),
      if_neg (by intro hc; have hB := pyfloat_le_sci hc.2; push_cast at hB; omega),
      if_neg (by intro hc; have hB := pyfloat_le_sci hc.2; push_cast at hB; omega),
      if_neg (by intro hc; have hB := pyfloat_le_sci hc.2; push_cast at hB; omega),
      if_neg (by intro hc; have hB := pyfloat_le_sci hc.2; push_cast at hB; omega),
      if_neg (by intro hc; have hB := pyfloat_le_sci hc.2; push_cast at hB; omega),
      if_neg (by intro hc; have hB := pyfloat_le_sci hc.2; push_cast at hB; omega),
      if_pos (And.intro h1 h2)]

/-- Bucket lemma for `NNW`: degrees in (326.25, 348.75] resolve to `NNW`. -/
theorem compass_in_NNW (d : PyFloat) (h1 : (326.25 : PyFloat) < d) (h2 : d ≤ 348.75) :
    compass_direction d = "NNW" := by
  have hp : (0 : ℤ) < 10 ^ d.exp := pow_pos (by norm_num) _
  have g1 := pyfloat_sci_lt h1
  have g2 := pyfloat_le_sci h2
  push_cast at g1 g2
  unfold compass_direction
  rw [if_neg (by intro hc; have hB := pyfloat_le_sci hc.2; push_cast at hB; omega),
      if_neg (by intro hc; have hB := pyfloat_le_sci hc.2; push_cast at hB; omega),
      if_neg (by intro hc; have hB := pyfloat_le_sci hc.2; push_cast at hB; omega),
      if_neg (by intro hc; have hB := pyfloat_le_sci hc.2; push_cast at hB; omega),
      if_neg (by intro hc; have hB := pyfloat_le_sci hc.2; push_cast at hB; omega),
      if_neg (by intro hc; have hB := pyfloat_le_sci hc.2; push_cast at hB; omega),
      if_neg (by intro hc; have hB := pyfloat_le_sci hc.2; push_cast at hB; omega),
      if_neg (by intro hc; have hB := pyfloat_le_sci hc.2; push_cast at hB; omega),
      if_neg (by intro hc; have hB := pyfloat_le_sci hc.2; push_cast at hB; omega),
      if_neg (by intro hc; have hB := pyfloat_le_sci hc.2; push_cast at hB; omega),
      if_neg (by intro hc; have hB := pyfloat_le_sci hc.2; push_cast at hB; omega),
      if_neg (by intro hc; have hB := pyfloat_le_sci hc.2; push_cast at hB; omega),
      if_neg (by intro hc; have hB := pyfloat_le_sci hc.2; push_cast at hB; omega),
      if_neg (by intro hc; have hB := pyfloat_le_sci hc.2; push_cast at hB; omega),
      if_pos (And.intro h1 h2)]

/-- Totality: the compass resolver always returns one of the sixteen
labels. -/
theorem compass_mem_labels (d : PyFloat) : compass_direction d ∈ compassLabels := by
  by_cases h1 : d ≤ 11.25
  · rw [compass_le_low h1]; decide
  by_cases h2 : d ≤ 33.75
  · rw [compass_in_NNE d (pyfloat_lt_of_not_le h1) h2]; decide
  by_cases h3 : d ≤ 56.25
  · rw [compass_in_NE d (pyfloat_lt_of_not_le h2) h3]; decide
  by_cases h4 : d ≤ 78.75
  · rw [compass_in_ENE d (pyfloat_lt_of_not_le h3) h4]; decide
  by_cases h5 : d ≤ 101.25
  · rw [compass_in_E d (pyfloat_lt_of_not_le h4) h5]; decide
  by_cases h6 : d ≤ 123.75
  · rw [compass_in_ESE d (pyfloat_lt_of_not_le h5) h6]; decide
  by_cases h7 : d ≤ 146.25
  · rw [compass_in_SE d (pyfloat_lt_of_not_le h6) h7]; decide
  by_cases h8 : d ≤ 168.75
  · rw [compass_in_SSE d (pyfloat_lt_of_not_le h7) h8]; decide
  by_cases h9 : d ≤ 191.25
  · rw [compass_in_S d (pyfloat_lt_of_not_le h8) h9]; decide
  by_cases h10 : d ≤ 213.75
  · rw [compass_in_SSW d (pyfloat_lt_of_not_le h9) h10]; decide
  by_cases h11 : d ≤ 236.25
  · rw [compass_in_SW d (pyfloat_lt_of_not_le h10) h11]; decide
  by_cases h12 : d ≤ 258.75
  · rw [compass_in_WSW d (pyfloat_lt_of_not_le h11) h12]; decide
  by_cases h13 : d ≤ 281.25
  · rw [compass_in_W d (pyfloat_lt_of_not_le h12) h13]; decide
  by_cases h14 : d ≤ 303.75
  · rw [compass_in_WNW d (pyfloat_lt_of_not_le h13) h14]; decide
  by_cases h15 : d ≤ 326.25
  · rw [compass_in_NW d (pyfloat_lt_of_not_le h14) h15]; decide
  by_cases h16 : d ≤ 348.75
  · rw [compass_in_NNW d (pyfloat_lt_of_not_le h15) h16]; decide
  rw [compass_gt_high (pyfloat_lt_of_not_le h16)]; decide

/-- The line loop is exactly a filter (drop the `#YY`-prefixed lines)
followed by a map (slice every survivor). -/
theorem parseLoop_eq_filter_map (lines : List String) :
    parseLoop lines =
      (lines.filter (fun l => !(pySlice l 0 3 == "#YY"))).map sliceLine := by
  induction lines with
  | nil => rfl
  | cons l rest ih =>
    cases hc : pySlice l 0 3 == "#YY" with
    | true => simp [parseLoop, List.filter, hc, ih]
    | false => simp [parseLoop, List.filter, hc, ih]

theorem guardInt_ok_none_iff {t : String} {v : Option ℤ}
    (h : guardInt t = Except.ok v) : v = none ↔ t = "MM" := by
  unfold guardInt at h
  by_cases hmm : t = "MM"
  · rw [if_pos hmm] at h
    cases h
    exact iff_of_true rfl hmm
  · rw [if_neg hmm] at h
    obtain ⟨a, -, hfa⟩ := exmap_ok h
    rw [← hfa]
    exact iff_of_false (by simp) hmm

theorem guardFloat_ok_none_iff {t : String} {v : Option PyFloat}
    (h : guardFloat t = Except.ok v) : v = none ↔ t = "MM" := by
  unfold guardFloat at h
  by_cases hmm : t = "MM"
  · rw [if_pos hmm] at h
    cases h
    exact iff_of_true rfl hmm
  · rw [if_neg hmm] at h
    obtain ⟨a, -, hfa⟩ := exmap_ok h
    rw [← hfa]
    exact iff_of_false (by simp) hmm

theorem guardCompass_ok_none_iff {t : String} {v : Option String}
    (h : guardCompass t = Except.ok v) : v = none ↔ t = "MM" := by
  unfold guardCompass at h
  by_cases hmm : t = "MM"
  · rw [if_pos hmm] at h
    cases h
    exact iff_of_true rfl hmm
  · rw [if_neg hmm] at h
    obtain ⟨a, -, hfa⟩ := exmap_ok h
    rw [← hfa]
    exact iff_of_false (by simp) hmm

theorem guardRound_ok_none_iff {t : String} {v : Option ℤ}
    (h : guardRound t = Except.ok v) : v = none ↔ t = "MM" := by
  unfold guardRound at h
  by_cases hmm : t = "MM"
  · rw [if_pos hmm] at h
    cases h
    exact iff_of_true rfl hmm
  · rw [if_neg hmm] at h
    obtain ⟨a, -, hfa⟩ := exmap_ok h
    rw [← hfa]
    exact iff_of_false (by simp) hmm

theorem guardInt_ok_val {t : String} {v : Option ℤ}
    (h : guardInt t = Except.ok v) (hmm : t ≠ "MM") {n : ℤ}
    (hp : pythonIntParse t = some n) : v = some n := by
  unfold guardInt at h
  rw [if_neg hmm] at h
  obtain ⟨a, ha, hfa⟩ := exmap_ok h
  have := pyInt_ok_parse ha
  rw [hp] at this
  cases this
  rw [← hfa]

theorem guardFloat_ok_val {t : String} {v : Option PyFloat}
    (h : guardFloat t = Except.ok v) (hmm : t ≠ "MM") {q : PyFloat}
    (hp : pythonFloatParse t = some q) : v = some q := by
  unfold guardFloat at h
  rw [if_neg hmm] at h
  obtain ⟨a, ha, hfa⟩ := exmap_ok h
  have := pyFloat_ok_parse ha
  rw [hp] at this
  cases this
  rw [← hfa]

theorem guardCompass_ok_val {t : String} {v : Option String}
    (h : guardCompass t = Except.ok v) (hmm : t ≠ "MM") {q : PyFloat}
    (hp : pythonFloatParse t = some q) : v = some (compass_direction q) := by
  unfold guardCompass at h
  rw [if_neg hmm] at h
  obtain ⟨a, ha, hfa⟩ := exmap_ok h
  have := pyFloat_ok_parse ha
  rw [hp] at this
  cases this
  rw [← hfa]

theorem guardRound_ok_val {t : String} {v : Option ℤ}
    (h : guardRound t = Except.ok v) (hmm : t ≠ "MM") {q : PyFloat}
    (hp : pythonFloatParse t = some q) : v = some (pythonRound q) := by
  unfold guardRound at h
  rw [if_neg hmm] at h
  obtain ⟨a, ha, hfa⟩ := exmap_ok h
  have := pyFloat_ok_parse ha
  rw [hp] at this
  cases this
  rw [← hfa]

theorem pyInt_ok_isSome {t : String} {n : ℤ} (h : pyInt t = Except.ok n) :
    (pythonIntParse t).isSome = true := by
  rw [pyInt_ok_parse h]
  rfl

theorem pyFloat_ok_isSome {t : String} {q : PyFloat} (h : pyFloat t = Except.ok q) :
    (pythonFloatParse t).isSome = true := by
  rw [pyFloat_ok_parse h]
  rfl

theorem guardInt_ok_isSome {t : String} {v : Option ℤ}
    (h : guardInt t = Except.ok v) (hmm : t ≠ "MM") :
    (pythonIntParse t).isSome = true := by
  unfold guardInt at h
  rw [if_neg hmm] at h
  obtain ⟨a, ha, -⟩ := exmap_ok h
  exact pyInt_ok_isSome ha

theorem guardFloat_ok_isSome {t : String} {v : Option PyFloat}
    (h : guardFloat t = Except.ok v) (hmm : t ≠ "MM") :
    (pythonFloatParse t).isSome = true := by
  unfold guardFloat at h
  rw [if_neg hmm] at h
  obtain ⟨a, ha, -⟩ := exmap_ok h
  exact pyFloat_ok_isSome ha

theorem guardRound_ok_isSome {t : String} {v : Option ℤ}
    (h : guardRound t = Except.ok v) (hmm : t ≠ "MM") :
    (pythonFloatParse t).isSome = true := by
  unfold guardRound at h
  rw [if_neg hmm] at h
  obtain ⟨a, ha, -⟩ := exmap_ok h
  exact pyFloat_ok_isSome ha

/-- Master inversion: a successful `normalizeRows` determines every
coercion outcome and the exact shape of the returned record. -/
theorem normalizeRows_ok_inv {st : StationXml} {r0 r1 : RawRow} {out : Structured}
    (h : normalizeRows st r0 r1 = Except.ok out) :
    ∃ latitude longitude elevation yy mo dd hh mi wdir wdirCompass wspd gst
      wvht dpd apd mwd mwdCompass pres atmp wtmp dewp vis ptdy tide,
      pyFloat st.lat = Except.ok latitude ∧
      pyFloat st.lon = Except.ok longitude ∧
      elevInt st.elev = Except.ok elevation ∧
      pyInt r1.YY = Except.ok yy ∧
      pyInt r1.MM = Except.ok mo ∧
      pyInt r1.DD = Except.ok dd ∧
      pyInt r1.hh = Except.ok hh ∧
      pyInt r1.mm = Except.ok mi ∧
      guardInt r1.WDIR = Except.ok wdir ∧
      guardCompass r1.WDIR = Except.ok wdirCompass ∧
      guardFloat r1.WSPD = Except.ok wspd ∧
      guardFloat r1.GST = Except.ok gst ∧
      guardFloat r1.WVHT = Except.ok wvht ∧
      guardInt r1.DPD = Except.ok dpd ∧
      guardRound r1.APD = Except.ok apd ∧
      guardInt r1.MWD = Except.ok mwd ∧
      guardCompass r1.MWD = Except.ok mwdCompass ∧
      guardFloat r1.PRES = Except.ok pres ∧
      guardFloat r1.ATMP = Except.ok atmp ∧
      guardFloat r1.WTMP = Except.ok wtmp ∧
      guardFloat r1.DEWP = Except.ok dewp ∧
      guardFloat r1.VIS = Except.ok vis ∧
      guardFloat r1.PTDY = Except.ok ptdy ∧
      guardFloat r1.TIDE = Except.ok tide ∧
      out =
        { location :=
            { latitude := latitude, longitude := longitude,
              elevation := elevation, name := st.name }
          observation :=
            { time := { year := yy, month := mo, day := dd, hour := hh, minute := mi }
              wind :=
                { direction := wdir, direction_unit := r0.WDIR,
                  direction_compass := wdirCompass,
                  speed := wspd, speed_unit := r0.WSPD,
                  gusts := gst, gusts_unit := r0.GST }
              waves :=
                { height := wvht, height_unit := r0.WVHT,
                  period := dpd, period_unit := r0.DPD,
                  average_period := apd, average_period_unit := r0.APD,
                  direction := mwd, direction_unit := r0.MWD,
                  direction_compass := mwdCompass }
              weather :=
                { pressure := pres, pressure_unit := r0.PRES,
                  air_temperature := atmp, air_temperature_unit := r0.ATMP,
                  water_temperature := wtmp, water_temperature_unit := r0.WTMP,
                  dewpoint := dewp, dewpoint_unit := r0.DEWP,
                  visibility := vis, visibility_unit := r0.VIS,
                  pressure_tendency := ptdy, pressure_tendency_unit := r0.PTDY,
                  tide := tide, tide_unit := r0.TIDE } } } := by
  unfold normalizeRows at h
  obtain ⟨latitude, hlat, h⟩ := exbind_ok h
  obtain ⟨longitude, hlon, h⟩ := exbind_ok h
  obtain ⟨elevation, helev, h⟩ := exbind_ok h
  obtain ⟨yy, hyy, h⟩ := exbind_ok h
  obtain ⟨mo, hmo, h⟩ := exbind_ok h
  obtain ⟨dd, hdd, h⟩ := exbind_ok h
  obtain ⟨hh, hhh, h⟩ := exbind_ok h
  obtain ⟨mi, hmi, h⟩ := exbind_ok h
  obtain ⟨wdir, hwdir, h⟩ := exbind_ok h
  obtain ⟨wdirCompass, hwdirC, h⟩ := exbind_ok h
  obtain ⟨wspd, hwspd, h⟩ := exbind_ok h
  obtain ⟨gst, hgst, h⟩ := exbind_ok h
  obtain ⟨wvht, hwvht, h⟩ := exbind_ok h
  obtain ⟨dpd, hdpd, h⟩ := exbind_ok h
  obtain ⟨apd, hapd, h⟩ := exbind_ok h
  obtain ⟨mwd, hmwd, h⟩ := exbind_ok h
  obtain ⟨mwdCompass, hmwdC, h⟩ := exbind_ok h
  obtain ⟨pres, hpres, h⟩ := exbind_ok h
  obtain ⟨atmp, hatmp, h⟩ := exbind_ok h
  obtain ⟨wtmp, hwtmp, h⟩ := exbind_ok h
  obtain ⟨dewp, hdewp, h⟩ := exbind_ok h
  obtain ⟨vis, hvis, h⟩ := exbind_ok h
  obtain ⟨ptdy, hptdy, h⟩ := exbind_ok h
  obtain ⟨tide, htide, h⟩ := exbind_ok h
  cases h
  exact ⟨latitude, longitude, elevation, yy, mo, dd, hh, mi, wdir, wdirCompass,
    wspd, gst, wvht, dpd, apd, mwd, mwdCompass, pres, atmp, wtmp, dewp, vis,
    ptdy, tide, hlat, hlon, helev, hyy, hmo, hdd, hhh, hmi, hwdir, hwdirC,
    hwspd, hgst, hwvht, hdpd, hapd, hmwd, hmwdC, hpres, hatmp, hwtmp, hdewp,
    hvis, hptdy, htide, rfl⟩

/-! ## Claim theorems -/

/-- C1 (counterexample): the claim asserts `resolve(348.75) = "N"`, but
the source's `NNW` branch tests `degrees > 326.25 and degrees <= 348.75`,
which is satisfied at exactly 348.75, so the code returns `NNW`, not
`N`. -/
theorem compass_348_75_counterexample :
    compass_direction 348.75 = "NNW" ∧ compass_direction 348.75 ≠ "N" := by
  decide

/-- C1 (amended): boundary exactness with `resolve(348.75) = "NNW"` (the
inclusive upper end of the NNW bucket) instead of the claimed `"N"`; all
other parts of the claim hold: the listed boundary evaluations, the
catch-all rule that `N` results for any degrees value not strictly
greater than 11.25 or strictly greater than 348.75, and each named bucket
being `(lowerExclusive, upperInclusive]` of width 22.5. -/
theorem compass_boundary_exactness :
    compass_direction 11.25 = "N" ∧
    compass_direction 11.26 = "NNE" ∧
    compass_direction 348.75 = "NNW" ∧
    compass_direction 0.0 = "N" ∧
    compass_direction 360.0 = "N" ∧
    (∀ d : PyFloat, d ≤ 11.25 ∨ (348.75 : PyFloat) < d → compass_direction d = "N") ∧
    (∀ d : PyFloat, (11.25 : PyFloat) < d → d ≤ 33.75 → compass_direction d = "NNE") ∧
    (∀ d : PyFloat, (33.75 : PyFloat) < d → d ≤ 56.25 → compass_direction d = "NE") ∧
    (∀ d : PyFloat, (56.25 : PyFloat) < d → d ≤ 78.75 → compass_direction d = "ENE") ∧
    (∀ d : PyFloat, (78.75 : PyFloat) < d → d ≤ 101.25 → compass_direction d = "E") ∧
    (∀ d : PyFloat, (101.25 : PyFloat) < d → d ≤ 123.75 → compass_direction d = "ESE") ∧
    (∀ d : PyFloat, (123.75 : PyFloat) < d → d ≤ 146.25 → compass_direction d = "SE") ∧
    (∀ d : PyFloat, (146.25 : PyFloat) < d → d ≤ 168.75 → compass_direction d = "SSE") ∧
    (∀ d : PyFloat, (168.75 : PyFloat) < d → d ≤ 191.25 → compass_direction d = "S") ∧
    (∀ d : PyFloat, (191.25 : PyFloat) < d → d ≤ 213.75 → compass_direction d = "SSW") ∧
    (∀ d : PyFloat, (213.75 : PyFloat) < d → d ≤ 236.25 → compass_direction d = "SW") ∧
    (∀ d : PyFloat, (236.25 : PyFloat) < d → d ≤ 258.75 → compass_direction d = "WSW") ∧
    (∀ d : PyFloat, (258.75 : PyFloat) < d → d ≤ 281.25 → compass_direction d = "W") ∧
    (∀ d : PyFloat, (281.25 : PyFloat) < d → d ≤ 303.75 → compass_direction d = "WNW") ∧
    (∀ d : PyFloat, (303.75 : PyFloat) < d → d ≤ 326.25 → compass_direction d = "NW") ∧
    (∀ d : PyFloat, (326.25 : PyFloat) < d → d ≤ 348.75 → compass_direction d = "NNW") :=
  ⟨by decide, by decide, by decide, by decide, by decide,
   fun _ h => h.elim (fun hle => compass_le_low hle) (fun hlt => compass_gt_high hlt),
   compass_in_NNE, compass_in_NE, compass_in_ENE, compass_in_E, compass_in_ESE,
   compass_in_SE, compass_in_SSE, compass_in_S, compass_in_SSW, compass_in_SW,
   compass_in_WSW, compass_in_W, compass_in_WNW, compass_in_NW, compass_in_NNW⟩

/-- C1 (witness): the amended theorem applied at concrete inputs 100.0
(inside the E bucket) and 400.0 (above 348.75). -/
theorem compass_boundary_exactness_witness :
    compass_direction 100.0 = "E" ∧ compass_direction 400.0 = "N" := by
  obtain ⟨-, -, -, -, -, hN, -, -, -, hE, -⟩ := compass_boundary_exactness
  exact ⟨hE 100.0 (by decide) (by decide), hN 400.0 (Or.inr (by decide))⟩

/-- C10 (confirmed): `compass_direction` is total: every input resolves
to one of the sixteen labels, and every input outside the fifteen named
buckets, that is any value not strictly greater than 11.25 or strictly
greater than 348.75 — including negative values and values above 360 —
resolves to the catch-all `N`. -/
theorem compass_total :
    (∀ d : PyFloat, compass_direction d ∈ compassLabels) ∧
    (∀ d : PyFloat, d ≤ 11.25 ∨ (348.75 : PyFloat) < d → compass_direction d = "N") :=
  ⟨compass_mem_labels,
   fun _ h => h.elim (fun hle => compass_le_low hle) (fun hlt => compass_gt_high hlt)⟩

/-- C10 (witness): totality applied at 500.0 (above 360) and -12.5
(negative). -/
theorem compass_total_witness :
    compass_direction 500.0 ∈ compassLabels ∧
    compass_direction 500.0 = "N" ∧ compass_direction (-12.5) = "N" := by
  obtain ⟨hm, hn⟩ := compass_total
  exact ⟨hm 500.0, hn 500.0 (Or.inr (by decide)), hn (-12.5) (Or.inl (by decide))⟩

/-- C2 (counterexample): at status 500 the source still parses and
returns the body, because the branch at line 193 only excludes 404; the
claimed `TransportError` is not raised. -/
theorem get_json_status_500_counterexample :
    get_json "46042" 500 (some "2024") = Except.ok [sliceLine "2024"] := by
  decide

/-- C2 (amended): a 404 status fails with the invalid-station
`ValueError`; any other status — success or not — parses the body and
returns the rows; the `ConnectionError` branch (line 215) is reachable
only in the hypothetical case of a `None` response body, which a
completed `resp.text()` never produces. -/
theorem get_json_status_amended :
    ∀ (station_id : String) (status : Nat) (r : String),
      get_json station_id 404 (some r) =
        Except.error (NdbcError.invalidStation station_id) ∧
      (status ≠ 404 → get_json station_id status (some r) =
        Except.ok (get_json_rows r)) ∧
      (status ≠ 404 → get_json station_id status none =
        Except.error NdbcError.connectionError) := by
  intro sid status r
  refine ⟨?_, ?_, ?_⟩
  · simp [get_json]
  · intro hs
    simp [get_json, hs]
  · intro hs
    simp [get_json, hs]

/-- C2 (witness): the amended theorem applied at station 41013, status
500, body `x`. -/
theorem get_json_status_witness :
    get_json "41013" 404 (some "x") =
      Except.error (NdbcError.invalidStation "41013") ∧
    get_json "41013" 500 (some "x") = Except.ok (get_json_rows "x") ∧
    get_json "41013" 500 none = Except.error NdbcError.connectionError := by
  have h := get_json_status_amended "41013" 500 "x"
  exact ⟨h.1, h.2.1 (by decide), h.2.2 (by decide)⟩

/-- C3 (code_bug): for a station id absent from the directory mapping,
line 37 subscripts the dict before its truthiness test, so the lookup
fails with Python `KeyError`, not with the intended invalid-station
`ValueError` whose message sits right next to it on line 38. -/
theorem get_data_missing_station_keyerror :
    ∀ (stations_list : List (String × StationXml)) (station_id : String)
      (status : Nat) (response : Option String),
      stations_list.lookup station_id = none →
      get_data stations_list station_id status response =
        Except.error (NdbcError.keyError station_id) := by
  intro l sid status resp h
  simp [get_data, dictGetitem, h, Bind.bind, Except.bind]

/-- C3 (witness): the failing input of the claim, station id `ZZZZ9`
absent from a directory holding only station 46042. -/
theorem get_data_missing_station_keyerror_witness :
    get_data [("46042", exampleStation)] "ZZZZ9" 200 (some "2024") =
      Except.error (NdbcError.keyError "ZZZZ9") :=
  get_data_missing_station_keyerror _ _ _ _ (by decide)

/-- C6 (confirmed): the fixed-width parser emits exactly one row per
input line in original order, dropping exactly the lines whose first
three characters are `#YY`; every surviving line, header or data alike,
is sliced the same way with no semantic validation. -/
theorem fixed_width_rows_filter_map :
    ∀ response : String,
      get_json_rows response =
        ((pySplit response).filter (fun l => !(pySlice l 0 3 == "#YY"))).map sliceLine :=
  fun response => parseLoop_eq_filter_map (pySplit response)

/-- C9 (confirmed): for every input line — also lines shorter than the
highest configured offset — and every vocabulary field, the slicer's
token is exactly the whitespace-trimmed clamped slice at the configured
byte range; totality of `sliceLine` over all strings means no bounds
error, and one token exists per field by construction.  Re-slicing is
the application of the same pure function, hence identical. -/
theorem slice_tokens_by_table :
    ∀ (line : String) (f : NdbcField),
      rawRowGet (sliceLine line) f =
        pyStrip (pySlice line (col_specification f).1 (col_specification f).2) := by
  intro line f
  cases f <;> rfl

/-- C4 (counterexample): a corrupt non-sentinel token (`WDIR = "12x"`)
makes normalization fail with the propagated raw coercion `ValueError`
of Python `int()` — there is no wrapping into a distinct
`MalformedObservation` error: `get_data` has no try/except around its
coercions. -/
theorem normalize_raw_error_counterexample :
    normalizeRows exampleStation exampleUnitsRow
        { exampleValueRow with WDIR := "12x" } =
      Except.error (NdbcError.coercionValueError "12x") := by
  decide

/-- C4 (amended): if any non-sentinel value-row token fails numeric
coercion, normalization fails as a whole — no partial
StructuredObservation is ever returned — but the failure is the
propagated raw parse error rather than a wrapped `MalformedObservation`.
Stated as the contrapositive: a successful normalization implies every
coerced token parsed, the five time tokens unconditionally and every
guarded measurement token when it is not the `MM` sentinel. -/
theorem normalize_all_or_nothing :
    ∀ (st : StationXml) (r0 r1 : RawRow) (out : Structured),
      normalizeRows st r0 r1 = Except.ok out →
      (pythonIntParse r1.YY).isSome = true ∧
      (pythonIntParse r1.MM).isSome = true ∧
      (pythonIntParse r1.DD).isSome = true ∧
      (pythonIntParse r1.hh).isSome = true ∧
      (pythonIntParse r1.mm).isSome = true ∧
      (r1.WDIR ≠ "MM" → (pythonIntParse r1.WDIR).isSome = true) ∧
      (r1.WSPD ≠ "MM" → (pythonFloatParse r1.WSPD).isSome = true) ∧
      (r1.GST ≠ "MM" → (pythonFloatParse r1.GST).isSome = true) ∧
      (r1.WVHT ≠ "MM" → (pythonFloatParse r1.WVHT).isSome = true) ∧
      (r1.DPD ≠ "MM" → (pythonIntParse r1.DPD).isSome = true) ∧
      (r1.APD ≠ "MM" → (pythonFloatParse r1.APD).isSome = true) ∧
      (r1.MWD ≠ "MM" → (pythonIntParse r1.MWD).isSome = true) ∧
      (r1.PRES ≠ "MM" → (pythonFloatParse r1.PRES).isSome = true) ∧
      (r1.ATMP ≠ "MM" → (pythonFloatParse r1.ATMP).isSome = true) ∧
      (r1.WTMP ≠ "MM" → (pythonFloatParse r1.WTMP).isSome = true) ∧
      (r1.DEWP ≠ "MM" → (pythonFloatParse r1.DEWP).isSome = true) ∧
      (r1.VIS ≠ "MM" → (pythonFloatParse r1.VIS).isSome = true) ∧
      (r1.PTDY ≠ "MM" → (pythonFloatParse r1.PTDY).isSome = true) ∧
      (r1.TIDE ≠ "MM" → (pythonFloatParse r1.TIDE).isSome = true) := by
  intro st r0 r1 out h
  obtain ⟨latitude, longitude, elevation, yy, mo, dd, hh, mi, wdir, wdirCompass,
    wspd, gst, wvht, dpd, apd, mwd, mwdCompass, pres, atmp, wtmp, dewp, vis,
    ptdy, tide, hlat, hlon, helev, hyy, hmo, hdd, hhh, hmi, hwdir, hwdirC,
    hwspd, hgst, hwvht, hdpd, hapd, hmwd, hmwdC, hpres, hatmp, hwtmp, hdewp,
    hvis, hptdy, htide, hout⟩ := normalizeRows_ok_inv h
  exact ⟨pyInt_ok_isSome hyy, pyInt_ok_isSome hmo, pyInt_ok_isSome hdd,
    pyInt_ok_isSome hhh, pyInt_ok_isSome hmi,
    fun hne => guardInt_ok_isSome hwdir hne,
    fun hne => guardFloat_ok_isSome hwspd hne,
    fun hne => guardFloat_ok_isSome hgst hne,
    fun hne => guardFloat_ok_isSome hwvht hne,
    fun hne => guardInt_ok_isSome hdpd hne,
    fun hne => guardRound_ok_isSome hapd hne,
    fun hne => guardInt_ok_isSome hmwd hne,
    fun hne => guardFloat_ok_isSome hpres hne,
    fun hne => guardFloat_ok_isSome hatmp hne,
    fun hne => guardFloat_ok_isSome hwtmp hne,
    fun hne => guardFloat_ok_isSome hdewp hne,
    fun hne => guardFloat_ok_isSome hvis hne,
    fun hne => guardFloat_ok_isSome hptdy hne,
    fun hne => guardFloat_ok_isSome htide hne⟩

/-- C4 (witness): the amended theorem applied to the concrete fixtures,
extracting the unconditional YY conjunct and the guarded GST conjunct. -/
theorem normalize_all_or_nothing_witness :
    (pythonIntParse exampleValueRow.YY).isSome = true ∧
    (exampleValueRow.GST ≠ "MM" → (pythonFloatParse exampleValueRow.GST).isSome = true) := by
  obtain ⟨hYY, -, -, -, -, -, -, hGST, -⟩ :=
    normalize_all_or_nothing exampleStation exampleUnitsRow
      exampleValueRow exampleStructured (by decide)
  exact ⟨hYY, hGST⟩

/-- C5 (confirmed): on a successful normalization, every measured value
of the wind, waves and weather groups is `None` exactly when its
value-row token is the sentinel `MM`, whatever the field's numeric type,
and the two derived compass labels are `None` under exactly the same
condition. -/
theorem normalize_sentinel_null_iff :
    ∀ (st : StationXml) (r0 r1 : RawRow) (out : Structured),
      normalizeRows st r0 r1 = Except.ok out →
      (out.observation.wind.direction = none ↔ r1.WDIR = "MM") ∧
      (out.observation.wind.direction_compass = none ↔ r1.WDIR = "MM") ∧
      (out.observation.wind.speed = none ↔ r1.WSPD = "MM") ∧
      (out.observation.wind.gusts = none ↔ r1.GST = "MM") ∧
      (out.observation.waves.height = none ↔ r1.WVHT = "MM") ∧
      (out.observation.waves.period = none ↔ r1.DPD = "MM") ∧
      (out.observation.waves.average_period = none ↔ r1.APD = "MM") ∧
      (out.observation.waves.direction = none ↔ r1.MWD = "MM") ∧
      (out.observation.waves.direction_compass = none ↔ r1.MWD = "MM") ∧
      (out.observation.weather.pressure = none ↔ r1.PRES = "MM") ∧
      (out.observation.weather.air_temperature = none ↔ r1.ATMP = "MM") ∧
      (out.observation.weather.water_temperature = none ↔ r1.WTMP = "MM") ∧
      (out.observation.weather.dewpoint = none ↔ r1.DEWP = "MM") ∧
      (out.observation.weather.visibility = none ↔ r1.VIS = "MM") ∧
      (out.observation.weather.pressure_tendency = none ↔ r1.PTDY = "MM") ∧
      (out.observation.weather.tide = none ↔ r1.TIDE = "MM") := by
  intro st r0 r1 out h
  obtain ⟨latitude, longitude, elevation, yy, mo, dd, hh, mi, wdir, wdirCompass,
    wspd, gst, wvht, dpd, apd, mwd, mwdCompass, pres, atmp, wtmp, dewp, vis,
    ptdy, tide, hlat, hlon, helev, hyy, hmo, hdd, hhh, hmi, hwdir, hwdirC,
    hwspd, hgst, hwvht, hdpd, hapd, hmwd, hmwdC, hpres, hatmp, hwtmp, hdewp,
    hvis, hptdy, htide, hout⟩ := normalizeRows_ok_inv h
  subst hout
  exact ⟨guardInt_ok_none_iff hwdir, guardCompass_ok_none_iff hwdirC,
    guardFloat_ok_none_iff hwspd, guardFloat_ok_none_iff hgst,
    guardFloat_ok_none_iff hwvht, guardInt_ok_none_iff hdpd,
    guardRound_ok_none_iff hapd, guardInt_ok_none_iff hmwd,
    guardCompass_ok_none_iff hmwdC, guardFloat_ok_none_iff hpres,
    guardFloat_ok_none_iff hatmp, guardFloat_ok_none_iff hwtmp,
    guardFloat_ok_none_iff hdewp, guardFloat_ok_none_iff hvis,
    guardFloat_ok_none_iff hptdy, guardFloat_ok_none_iff htide⟩

/-- C5 (witness): the theorem applied to the concrete fixtures: the
sentinel `GST = "MM"` gives a null gust value, the numeric
`WSPD = "5.1"` gives a non-null speed. -/
theorem normalize_sentinel_null_iff_witness :
    (exampleStructured.observation.wind.gusts = none ↔ exampleValueRow.GST = "MM") ∧
    (exampleStructured.observation.wind.speed = none ↔ exampleValueRow.WSPD = "MM") := by
  obtain ⟨-, -, hspeed, hgusts, -⟩ :=
    normalize_sentinel_null_iff exampleStation exampleUnitsRow
      exampleValueRow exampleStructured (by decide)
  exact ⟨hgusts, hspeed⟩

/-- C7 (confirmed): on a successful normalization, the average wave
period is the float-parsed token rounded to the nearest integer (Python
`round`, half to even), while the dominant period and the two direction
bearings are plain integer parses, and the continuous quantities are
plain float parses. -/
theorem coercion_types_per_field :
    ∀ (st : StationXml) (r0 r1 : RawRow) (out : Structured),
      normalizeRows st r0 r1 = Except.ok out →
      (∀ q : PyFloat, r1.APD ≠ "MM" → pythonFloatParse r1.APD = some q →
        out.observation.waves.average_period = some (pythonRound q)) ∧
      (∀ n : ℤ, r1.DPD ≠ "MM" → pythonIntParse r1.DPD = some n →
        out.observation.waves.period = some n) ∧
      (∀ n : ℤ, r1.WDIR ≠ "MM" → pythonIntParse r1.WDIR = some n →
        out.observation.wind.direction = some n) ∧
      (∀ n : ℤ, r1.MWD ≠ "MM" → pythonIntParse r1.MWD = some n →
        out.observation.waves.direction = some n) ∧
      (∀ q : PyFloat, r1.WSPD ≠ "MM" → pythonFloatParse r1.WSPD = some q →
        out.observation.wind.speed = some q) ∧
      (∀ q : PyFloat, r1.GST ≠ "MM" → pythonFloatParse r1.GST = some q →
        out.observation.wind.gusts = some q) ∧
      (∀ q : PyFloat, r1.WVHT ≠ "MM" → pythonFloatParse r1.WVHT = some q →
        out.observation.waves.height = some q) ∧
      (∀ q : PyFloat, r1.PRES ≠ "MM" → pythonFloatParse r1.PRES = some q →
        out.observation.weather.pressure = some q) ∧
      (∀ q : PyFloat, r1.ATMP ≠ "MM" → pythonFloatParse r1.ATMP = some q →
        out.observation.weather.air_temperature = some q) ∧
      (∀ q : PyFloat, r1.WTMP ≠ "MM" → pythonFloatParse r1.WTMP = some q →
        out.observation.weather.water_temperature = some q) ∧
      (∀ q : PyFloat, r1.DEWP ≠ "MM" → pythonFloatParse r1.DEWP = some q →
        out.observation.weather.dewpoint = some q) ∧
      (∀ q : PyFloat, r1.VIS ≠ "MM" → pythonFloatParse r1.VIS = some q →
        out.observation.weather.visibility = some q) ∧
      (∀ q : PyFloat, r1.PTDY ≠ "MM" → pythonFloatParse r1.PTDY = some q →
        out.observation.weather.pressure_tendency = some q) ∧
      (∀ q : PyFloat, r1.TIDE ≠ "MM" → pythonFloatParse r1.TIDE = some q →
        out.observation.weather.tide = some q) := by
  intro st r0 r1 out h
  obtain ⟨latitude, longitude, elevation, yy, mo, dd, hh, mi, wdir, wdirCompass,
    wspd, gst, wvht, dpd, apd, mwd, mwdCompass, pres, atmp, wtmp, dewp, vis,
    ptdy, tide, hlat, hlon, helev, hyy, hmo, hdd, hhh, hmi, hwdir, hwdirC,
    hwspd, hgst, hwvht, hdpd, hapd, hmwd, hmwdC, hpres, hatmp, hwtmp, hdewp,
    hvis, hptdy, htide, hout⟩ := normalizeRows_ok_inv h
  subst hout
  exact ⟨fun q hne hp => guardRound_ok_val hapd hne hp,
    fun n hne hp => guardInt_ok_val hdpd hne hp,
    fun n hne hp => guardInt_ok_val hwdir hne hp,
    fun n hne hp => guardInt_ok_val hmwd hne hp,
    fun q hne hp => guardFloat_ok_val hwspd hne hp,
    fun q hne hp => guardFloat_ok_val hgst hne hp,
    fun q hne hp => guardFloat_ok_val hwvht hne hp,
    fun q hne hp => guardFloat_ok_val hpres hne hp,
    fun q hne hp => guardFloat_ok_val hatmp hne hp,
    fun q hne hp => guardFloat_ok_val hwtmp hne hp,
    fun q hne hp => guardFloat_ok_val hdewp hne hp,
    fun q hne hp => guardFloat_ok_val hvis hne hp,
    fun q hne hp => guardFloat_ok_val hptdy hne hp,
    fun q hne hp => guardFloat_ok_val htide hne hp⟩

/-- C7 (witness): the theorem applied to the concrete fixtures: APD
`5.5` float-parses to 5.5 and rounds (half to even) to 6, DPD `10`
int-parses to 10, WSPD `5.1` float-parses to 5.1. -/
theorem coercion_types_per_field_witness :
    exampleStructured.observation.waves.average_period = some (pythonRound ⟨55, 1⟩) ∧
    exampleStructured.observation.waves.period = some 10 ∧
    exampleStructured.observation.wind.speed = some ⟨51, 1⟩ := by
  obtain ⟨hapd, hdpd, -, -, hwspd, -⟩ :=
    coercion_types_per_field exampleStation exampleUnitsRow
      exampleValueRow exampleStructured (by decide)
  exact ⟨hapd ⟨55, 1⟩ (by decide) (by decide), hdpd 10 (by decide) (by decide),
    hwspd ⟨51, 1⟩ (by decide) (by decide)⟩

/-- C8 (confirmed): on a successful normalization, every unit string of
the structured record is the units-row token of its field verbatim —
never null (its type is `String`), never sentinel-checked, and
independent of whether the corresponding value is null. -/
theorem units_verbatim :
    ∀ (st : StationXml) (r0 r1 : RawRow) (out : Structured),
      normalizeRows st r0 r1 = Except.ok out →
      out.observation.wind.direction_unit = r0.WDIR ∧
      out.observation.wind.speed_unit = r0.WSPD ∧
      out.observation.wind.gusts_unit = r0.GST ∧
      out.observation.waves.height_unit = r0.WVHT ∧
      out.observation.waves.period_unit = r0.DPD ∧
      out.observation.waves.average_period_unit = r0.APD ∧
      out.observation.waves.direction_unit = r0.MWD ∧
      out.observation.weather.pressure_unit = r0.PRES ∧
      out.observation.weather.air_temperature_unit = r0.ATMP ∧
      out.observation.weather.water_temperature_unit = r0.WTMP ∧
      out.observation.weather.dewpoint_unit = r0.DEWP ∧
      out.observation.weather.visibility_unit = r0.VIS ∧
      out.observation.weather.pressure_tendency_unit = r0.PTDY ∧
      out.observation.weather.tide_unit = r0.TIDE := by
  intro st r0 r1 out h
  obtain ⟨latitude, longitude, elevation, yy, mo, dd, hh, mi, wdir, wdirCompass,
    wspd, gst, wvht, dpd, apd, mwd, mwdCompass, pres, atmp, wtmp, dewp, vis,
    ptdy, tide, hlat, hlon, helev, hyy, hmo, hdd, hhh, hmi, hwdir, hwdirC,
    hwspd, hgst, hwvht, hdpd, hapd, hmwd, hmwdC, hpres, hatmp, hwtmp, hdewp,
    hvis, hptdy, htide, hout⟩ := normalizeRows_ok_inv h
  subst hout
  exact ⟨rfl, rfl, rfl, rfl, rfl, rfl, rfl, rfl, rfl, rfl, rfl, rfl, rfl, rfl⟩

/-- C8 (witness): the theorem applied to the concrete fixtures, whose
units row deliberately carries the sentinel spelling `MM` as the TIDE
unit: it is passed through verbatim, while the corresponding tide value
is null. -/
theorem units_verbatim_witness :
    exampleStructured.observation.weather.tide_unit = "MM" ∧
    exampleStructured.observation.wind.direction_unit = "degT" := by
  obtain ⟨hdir, -, -, -, -, -, -, -, -, -, -, -, -, htide⟩ :=
    units_verbatim exampleStation exampleUnitsRow
      exampleValueRow exampleStructured (by decide)
  exact ⟨htide, hdir⟩
